import Mathlib

/-!
Shallow embedding of the WLED device model (`src/wled/models.py`) and proofs
about its decoding behaviour.

Modelling conventions:

* Python payload dictionaries are modelled as records whose fields are exactly
  the keys the decoders read; `Option` distinguishes a present key (`some`)
  from an absent one (`none`).  `opt.getD d` models `dict.get(key, d)`.
* A payload sub-object is modelled as *falsy* (Python `{}` / empty list) when
  every modelled key is absent; `DVal` additionally models JSON `null` for the
  four top-level keys of the device payload, where `None` values matter.
* Python exceptions are modelled with `Except PyErr`; an attribute that is
  never assigned (so that reading it raises `AttributeError`) is modelled as
  an `Option` field that stays `none`.
* The in-place mutation performed by `Segment.from_dict` (popping up to three
  leading entries of the `"col"` list) is modelled by returning the updated
  payload alongside the decoded segment.
* Python's stable `list.sort(key=...)` is modelled by `List.mergeSort`.
-/

deriving instance DecidableEq for Except

namespace WLED

/-- Python string comparison `a <= b` (lexicographic by code point), stated on
the underlying character lists so that it evaluates inside the kernel; it
agrees with `String` order (`String.lt_iff_toList_lt`). -/
def strLe (a b : String) : Bool :=
  !decide (b.data < a.data)

/-- Models Python `enumerate`, starting the counter at `i`. -/
def enumerateFrom {α : Type} (i : Nat) : List α → List (Nat × α)
  | [] => []
  | a :: t => (i, a) :: enumerateFrom (i + 1) t

/-- Models Python `enumerate(l)`. -/
def enumerate {α : Type} (l : List α) : List (Nat × α) :=
  enumerateFrom 0 l

/-- Payload of the `"nl"` sub-object of a state payload. -/
structure NlPayload where
  dur : Option Int := none
  fade : Option Bool := none
  «on» : Option Bool := none
  tbri : Option Int := none
deriving DecidableEq

/-- Payload of the `"udpn"` sub-object of a state payload. -/
structure UdpnPayload where
  send : Option Bool := none
  recv : Option Bool := none
deriving DecidableEq

/-- Payload of one entry of the `"seg"` array of a state payload.  Colour
array entries are raw lists of integer channels, as received from the API. -/
structure SegPayload where
  start : Option Int := none
  stop : Option Int := none
  len : Option Int := none
  col : Option (List (List Int)) := none
  fx : Option Int := none
  pal : Option Int := none
  bri : Option Int := none
  cln : Option Int := none
  ix : Option Int := none
  «on» : Option Bool := none
  reverse : Option Bool := none
  sel : Option Bool := none
  sx : Option Int := none
deriving DecidableEq

/-- Payload of the `"state"` value of the device payload. -/
structure StatePayload where
  bri : Option Int := none
  «on» : Option Bool := none
  seg : Option (List SegPayload) := none
  pl : Option Int := none
  ps : Option Int := none
  transition : Option Int := none
  nl : Option NlPayload := none
  udpn : Option UdpnPayload := none
deriving DecidableEq

/-- Payload of the `"leds"` sub-object of an info payload. -/
structure LedsPayload where
  count : Option Int := none
  fps : Option Int := none
  maxpwr : Option Int := none
  maxseg : Option Int := none
  pin : Option Int := none
  pwr : Option Int := none
  rgbw : Option Bool := none
  wv : Option Bool := none
deriving DecidableEq

/-- Payload of the `"wifi"` sub-object of an info payload. -/
structure WifiPayload where
  bssid : Option String := none
  channel : Option Int := none
  rssi : Option Int := none
  signal : Option Int := none
deriving DecidableEq

/-- Payload of the `"info"` value of the device payload. -/
structure InfoPayload where
  arch : Option String := none
  core : Option String := none
  brand : Option String := none
  btype : Option String := none
  fxcount : Option Int := none
  freeheap : Option Int := none
  leds : Option LedsPayload := none
  lip : Option String := none
  lm : Option String := none
  live : Option Bool := none
  mac : Option String := none
  name : Option String := none
  palcount : Option Int := none
  product : Option String := none
  udpport : Option Int := none
  uptime : Option Int := none
  vid : Option String := none
  ver : Option String := none
  ws : Option Int := none
  wifi : Option WifiPayload := none
deriving DecidableEq

/-- A JSON value that may be `null`; used for the four top-level keys of the
device payload, where `None` values are distinguished from missing keys. -/
inductive DVal (α : Type) where
  | null
  | val (a : α)
deriving DecidableEq

/-- Top-level device payload: the four keys read by `Device`.  A field is
`none` when the key is absent from the payload altogether. -/
structure DevicePayload where
  effects : Option (DVal (List String)) := none
  palettes : Option (DVal (List String)) := none
  info : Option (DVal InfoPayload) := none
  state : Option (DVal StatePayload) := none
deriving DecidableEq

/-- Models Python truthiness of an empty state payload dictionary. -/
def StatePayload.isEmptyDict (d : StatePayload) : Bool :=
  decide (d = {})

/-- Models Python truthiness of an empty info payload dictionary. -/
def InfoPayload.isEmptyDict (d : InfoPayload) : Bool :=
  decide (d = {})

/-- Models `data.get(key)` followed by a Python truthiness test, as in
`if value := data.get(key):` — absent keys, `null` and falsy (empty)
values all yield `none`. -/
def getTruthy {α : Type} (isFalsy : α → Bool) : Option (DVal α) → Option α
  | some (DVal.val a) => if isFalsy a then none else some a
  | _ => none

/-- Object holding an effect in WLED (`Effect` dataclass). -/
structure Effect where
  effect_id : Int
  name : String
deriving DecidableEq

/-- Object holding a palette in WLED (`Palette` dataclass). -/
structure Palette where
  name : String
  palette_id : Int
deriving DecidableEq

/-- A value held in a colour slot of a decoded segment.  `tup cs` models a
Python tuple of channels obtained from the payload; `int n` models a plain
Python integer (the slot default `0` produced by the tuple unpacking
`primary_color, secondary_color, tertiary_color = (0, 0, 0)`). -/
inductive SegColor where
  | int (n : Int)
  | tup (cs : List Int)
deriving DecidableEq

/-- Object holding nightlight state in WLED (`Nightlight` dataclass). -/
structure Nightlight where
  duration : Int
  fade : Bool
  «on» : Bool
  target_brightness : Int
deriving DecidableEq

/-- Returns a Nightlight object from the WLED API state response. -/
def Nightlight.from_dict (data : StatePayload) : Nightlight :=
  let nightlight := data.nl.getD {}
  { duration := nightlight.dur.getD 1
    fade := nightlight.fade.getD false
    «on» := nightlight.«on».getD false
    target_brightness := nightlight.tbri.getD 0 }

/-- Object holding sync state in WLED (`Sync` dataclass). -/
structure Sync where
  receive : Bool
  send : Bool
deriving DecidableEq

/-- Returns a Sync object from the WLED API state response. -/
def Sync.from_dict (data : StatePayload) : Sync :=
  let sync := data.udpn.getD {}
  { send := sync.send.getD false, receive := sync.recv.getD false }

/-- Object holding segment state in WLED (`Segment` dataclass). -/
structure Segment where
  brightness : Int
  clones : Int
  color_primary : SegColor
  color_secondary : SegColor
  color_tertiary : SegColor
  effect : Effect
  intensity : Int
  length : Int
  «on» : Bool
  palette : Palette
  reverse : Bool
  segment_id : Int
  selected : Bool
  speed : Int
  start : Int
  stop : Int
deriving DecidableEq

/-- Returns a Segment object from the WLED API response, together with the
segment payload as it stands afterwards: the source pops up to three leading
entries off the payload's `"col"` list in place (the pop that raises
`IndexError` aborts the remaining assignments, leaving later slots at the
unpacked default `0`), so the caller's mapping is mutated whenever the
`"col"` key is present. -/
def Segment.from_dict (segment_id : Int) (data : SegPayload)
    (effects : List Effect) (palettes : List Palette)
    (state_on : Bool) (state_brightness : Int) : Segment × SegPayload :=
  let start := data.start.getD 0
  let stop := data.stop.getD 0
  let length := data.len.getD (stop - start)
  let colors := data.col.getD []
  let primary_color := match colors.get? 0 with
    | some c => SegColor.tup c
    | none => SegColor.int 0
  let secondary_color := match colors.get? 1 with
    | some c => SegColor.tup c
    | none => SegColor.int 0
  let tertiary_color := match colors.get? 2 with
    | some c => SegColor.tup c
    | none => SegColor.int 0
  let effect := (effects.find? (fun item => item.effect_id == data.fx.getD 0)).getD
    { effect_id := 0, name := "Unknown" }
  let palette := (palettes.find? (fun item => item.palette_id == data.pal.getD 0)).getD
    { name := "Unknown", palette_id := 0 }
  ({ brightness := data.bri.getD state_brightness
     clones := data.cln.getD (-1)
     color_primary := primary_color
     color_secondary := secondary_color
     color_tertiary := tertiary_color
     effect := effect
     intensity := data.ix.getD 0
     length := length
     «on» := data.«on».getD state_on
     palette := palette
     reverse := data.reverse.getD false
     segment_id := segment_id
     selected := data.sel.getD false
     speed := data.sx.getD 0
     start := start
     stop := stop },
   { data with col := data.col.map (fun cs => cs.drop 3) })

/-- Object holding leds info from WLED (`Leds` dataclass). -/
structure Leds where
  count : Int
  fps : Option Int
  max_power : Int
  max_segments : Int
  pin : Int
  power : Int
  rgbw : Bool
  wv : Bool
deriving DecidableEq

/-- Returns a Leds object from the WLED API info response. -/
def Leds.from_dict (data : InfoPayload) : Leds :=
  let leds := data.leds.getD {}
  { count := leds.count.getD 0
    fps := leds.fps
    max_power := leds.maxpwr.getD 0
    max_segments := leds.maxseg.getD 0
    pin := leds.pin.getD 0
    power := leds.pwr.getD 0
    rgbw := leds.rgbw.getD false
    wv := leds.wv.getD true }

/-- Object holding Wi-Fi information from WLED (`Wifi` dataclass). -/
structure Wifi where
  bssid : String
  channel : Int
  rssi : Int
  signal : Int
deriving DecidableEq

/-- Returns a Wifi object from the WLED API info response, or `none` when the
`"wifi"` key is absent from the payload. -/
def Wifi.from_dict (data : InfoPayload) : Option Wifi :=
  match data.wifi with
  | none => none
  | some wifi =>
    some
      { bssid := wifi.bssid.getD "00:00:00:00:00:00"
        channel := wifi.channel.getD 0
        rssi := wifi.rssi.getD 0
        signal := wifi.signal.getD 0 }

/-- Object holding information from WLED (`Info` dataclass). -/
structure Info where
  architecture : String
  arduino_core_version : String
  brand : String
  build_type : String
  effect_count : Int
  free_heap : Int
  leds : Leds
  live_ip : String
  live_mode : String
  live : Bool
  mac_address : String
  name : String
  pallet_count : Int
  product : String
  udp_port : Int
  uptime : Int
  version_id : String
  version : String
  websocket : Option Int
  wifi : Option Wifi
deriving DecidableEq

/-- Models Python `str.replace("_", ".")` character by character; with a
single-character pattern, occurrences cannot overlap, so the replacement is a
pointwise map over the characters. -/
def replaceUnderscores : List Char → List Char
  | [] => []
  | c :: t => (if c = '_' then '.' else c) :: replaceUnderscores t

/-- Models `data.get("core", "Unknown").replace("_", ".")` on a string. -/
def pyReplaceUnderscoreDot (s : String) : String :=
  String.mk (replaceUnderscores s.data)

/-- Returns an Info object from the WLED API info response. -/
def Info.from_dict (data : InfoPayload) : Info :=
  let websocket := if data.ws = some (-1) then none else data.ws
  { architecture := data.arch.getD "Unknown"
    arduino_core_version := pyReplaceUnderscoreDot (data.core.getD "Unknown")
    brand := data.brand.getD "WLED"
    build_type := data.btype.getD "Unknown"
    effect_count := data.fxcount.getD 0
    free_heap := data.freeheap.getD 0
    leds := Leds.from_dict data
    live_ip := data.lip.getD "Unknown"
    live_mode := data.lm.getD "Unknown"
    live := data.live.getD false
    mac_address := data.mac.getD ""
    name := data.name.getD "WLED Light"
    pallet_count := data.palcount.getD 0
    product := data.product.getD "DIY Light"
    udp_port := data.udpport.getD 0
    uptime := data.uptime.getD 0
    version_id := data.vid.getD "Unknown"
    version := data.ver.getD "Unknown"
    websocket := websocket
    wifi := Wifi.from_dict data }

/-- Object holding the state of WLED (`State` dataclass). -/
structure State where
  brightness : Int
  nightlight : Nightlight
  «on» : Bool
  playlist : Int
  preset : Int
  segments : List Segment
  sync : Sync
  transition : Int
deriving DecidableEq

/-- Returns whether a playlist is currently active (source: `self.playlist == -1`). -/
def State.playlist_active (s : State) : Bool :=
  s.playlist == -1

/-- Returns whether a preset is currently active (source: `self.preset == -1`). -/
def State.preset_active (s : State) : Bool :=
  s.preset == -1

/-- Returns a State object from the WLED API state response.  The segments in
the caller's payload are mutated by `Segment.from_dict`; the decoded `State`
keeps only the segment values. -/
def State.from_dict (data : StatePayload)
    (effects : List Effect) (palettes : List Palette) : State :=
  let brightness := data.bri.getD 1
  let «on» := data.«on».getD false
  let segments := (enumerate (data.seg.getD [])).map
    (fun p => (Segment.from_dict (p.1 : Int) p.2 effects palettes «on» brightness).1)
  { brightness := brightness
    nightlight := Nightlight.from_dict data
    «on» := «on»
    playlist := data.pl.getD (-1)
    preset := data.ps.getD (-1)
    segments := segments
    sync := Sync.from_dict data
    transition := data.transition.getD 0 }

/-- Object holding all information of WLED (`Device` class).  The class-level
defaults are the empty effect and palette tables; `info` and `state` are bare
annotations in the source, so an instance on which they were never assigned
raises `AttributeError` on access — modelled here by `none`. -/
structure Device where
  effects : List Effect := []
  palettes : List Palette := []
  info : Option Info := none
  state : Option State := none
deriving DecidableEq

/-- Effect catalog built from a payload array of names: the numeric ID is the
position in the input array, then the table is sorted (stably) by name. -/
def effectsFromNames (names : List String) : List Effect :=
  ((enumerate names).map (fun p => { effect_id := (p.1 : Int), name := p.2 })).mergeSort
    (fun a b => strLe a.name b.name)

/-- Palette catalog built from a payload array of names, as for effects. -/
def palettesFromNames (names : List String) : List Palette :=
  ((enumerate names).map (fun p => { name := p.2, palette_id := (p.1 : Int) })).mergeSort
    (fun a b => strLe a.name b.name)

/-- Updates the device object with the data received from a WLED device API
(`Device.update_from_dict`): each of the four keys replaces its aggregate
field only when the payload holds a truthy value for it, and the state decode
uses the effect and palette tables as updated by this same call. -/
def Device.update_from_dict (self : Device) (data : DevicePayload) : Device :=
  let self1 := match getTruthy (fun l => l.isEmpty) data.effects with
    | some _effects => { self with effects := effectsFromNames _effects }
    | none => self
  let self2 := match getTruthy (fun l => l.isEmpty) data.palettes with
    | some _palettes => { self1 with palettes := palettesFromNames _palettes }
    | none => self1
  let self3 := match getTruthy InfoPayload.isEmptyDict data.info with
    | some _info => { self2 with info := some (Info.from_dict _info) }
    | none => self2
  match getTruthy StatePayload.isEmptyDict data.state with
  | some _state =>
    { self3 with state := some (State.from_dict _state self3.effects self3.palettes) }
  | none => self3

/-- Python exceptions that the device constructor can raise. -/
inductive PyErr where
  | keyError (key : String)
  | wledError (msg : String)
deriving DecidableEq

/-- Returns whether this value is JSON `null` (Python `None`). -/
def DVal.is_none {α : Type} : DVal α → Bool
  | .null => true
  | .val _ => false

/-- Models the subscript `data[k]` restricted to the `is None` test performed
on it: raises `KeyError` when the key is absent. -/
def DevicePayload.item_is_none (data : DevicePayload) (k : String) : Except PyErr Bool :=
  match k with
  | "effects" =>
    match data.effects with
    | some v => Except.ok v.is_none
    | none => Except.error (PyErr.keyError k)
  | "palettes" =>
    match data.palettes with
    | some v => Except.ok v.is_none
    | none => Except.error (PyErr.keyError k)
  | "info" =>
    match data.info with
    | some v => Except.ok v.is_none
    | none => Except.error (PyErr.keyError k)
  | "state" =>
    match data.state with
    | some v => Except.ok v.is_none
    | none => Except.error (PyErr.keyError k)
  | _ => Except.error (PyErr.keyError k)

/-- Models `k in data` for the top-level device payload. -/
def DevicePayload.hasKey (data : DevicePayload) : String → Bool
  | "effects" => data.effects.isSome
  | "palettes" => data.palettes.isSome
  | "info" => data.info.isSome
  | "state" => data.state.isSome
  | _ => false

/-- Models one conjunct `k not in data and data[k] is not None` of the
completeness check in `Device.__init__`; when `k` is missing the conjunction
does not short-circuit, so Python evaluates `data[k]` and raises `KeyError`. -/
def Device.incomplete_at (data : DevicePayload) (k : String) : Except PyErr Bool :=
  if data.hasKey k then Except.ok false
  else do
    let isNone ← data.item_is_none k
    Except.ok (!isNone)

/-- Models Python `any` over a generator that may raise. -/
def anyExcept (f : String → Except PyErr Bool) : List String → Except PyErr Bool
  | [] => Except.ok false
  | k :: ks => do
    let b ← f k
    if b then Except.ok true else anyExcept f ks

/-- Models `Device.__init__`: run the completeness check over the four
required keys, raise the documented `WLEDError` if it reports incompleteness,
otherwise populate an empty device via `update_from_dict`. -/
def Device.init (data : DevicePayload) : Except PyErr Device := do
  let incomplete ← anyExcept (Device.incomplete_at data) ["effects", "palettes", "info", "state"]
  if incomplete then
    Except.error (PyErr.wledError "WLED data is incomplete, cannot construct device object")
  else
    Except.ok (Device.update_from_dict {} data)

/-! Helper lemmas shared by the claim theorems. -/

/-- The boolean comparison used for catalog sorting agrees with `String` order. -/
theorem strLe_eq_true_iff (a b : String) : strLe a b = true ↔ a ≤ b := by
  unfold strLe
  rw [Bool.not_eq_true', decide_eq_false_iff_not, String.le_iff_toList_le, ← not_lt]
  exact Iff.rfl

/-- Transitivity of `strLe`, in the form `List.mergeSort` lemmas expect. -/
theorem strLe_trans {α : Type} (nm : α → String) :
    ∀ (a b c : α), strLe (nm a) (nm b) → strLe (nm b) (nm c) → strLe (nm a) (nm c) := by
  intro a b c hab hbc
  rw [strLe_eq_true_iff] at *
  exact le_trans hab hbc

/-- Totality of `strLe`, in the form `List.mergeSort` lemmas expect. -/
theorem strLe_total {α : Type} (nm : α → String) :
    ∀ (a b : α), strLe (nm a) (nm b) || strLe (nm b) (nm a) := by
  intro a b
  rcases le_total (nm a) (nm b) with h | h <;>
    simp [strLe_eq_true_iff, h]

/-- Element lookup in `enumerateFrom`. -/
theorem enumerateFrom_get? {α : Type} (i n : Nat) (l : List α) :
    (enumerateFrom i l).get? n = (l.get? n).map (fun a => (i + n, a)) := by
  induction l generalizing i n with
  | nil => simp [enumerateFrom]
  | cons a t ih =>
    cases n with
    | zero => simp [enumerateFrom]
    | succ m =>
      have harith : i + 1 + m = i + (m + 1) := by omega
      have := ih (i + 1) m
      simp only [enumerateFrom, List.get?, this, harith]

/-- Element lookup in `enumerate`. -/
theorem enumerate_get? {α : Type} (n : Nat) (l : List α) :
    (enumerate l).get? n = (l.get? n).map (fun a => (n, a)) := by
  simpa using enumerateFrom_get? 0 n l

/-- Length of `enumerateFrom`. -/
theorem enumerateFrom_length {α : Type} (i : Nat) (l : List α) :
    (enumerateFrom i l).length = l.length := by
  induction l generalizing i with
  | nil => rfl
  | cons a t ih => simp [enumerateFrom, ih]

/-- A two-element sublist gives two ordered indices. -/
theorem get?_pair_sublist {α : Type} {a b : α} :
    ∀ {r : List α}, List.Sublist [a, b] r →
      ∃ p q, p < q ∧ r.get? p = some a ∧ r.get? q = some b := by
  intro r h
  induction r with
  | nil => cases h
  | cons x t ih =>
    cases h with
    | cons _ h' =>
      obtain ⟨p, q, hpq, hp, hq⟩ := ih h'
      exact ⟨p + 1, q + 1, by omega, hp, hq⟩
    | cons₂ _ h' =>
      obtain ⟨q, hq⟩ := List.get?_of_mem (List.singleton_sublist.mp h')
      exact ⟨0, q + 1, Nat.succ_pos q, rfl, hq⟩

/-- Two ordered indices give a two-element sublist. -/
theorem pair_sublist_get? {α : Type} :
    ∀ (r : List α) (i j : Nat) (a b : α), i < j →
      r.get? i = some a → r.get? j = some b → List.Sublist [a, b] r := by
  intro r
  induction r with
  | nil => intro i j a b _ ha _; simp at ha
  | cons x t ih =>
    intro i j a b hij ha hb
    cases i with
    | zero =>
      cases j with
      | zero => omega
      | succ m =>
        have hax : x = a := by simpa using ha
        subst hax
        exact List.Sublist.cons₂ x (List.singleton_sublist.mpr (List.get?_mem hb))
    | succ n =>
      cases j with
      | zero => omega
      | succ m =>
        exact List.Sublist.cons x (ih n m a b (by omega) ha hb)

/-- Sorting with `strLe` on a name projection yields a list that is pairwise
ordered by name. -/
theorem mergeSort_strLe_sorted {α : Type} (nm : α → String) (l : List α) :
    (l.mergeSort (fun x y => strLe (nm x) (nm y))).Pairwise (fun x y => nm x ≤ nm y) := by
  have h := @List.sorted_mergeSort _ (fun x y => strLe (nm x) (nm y))
    (strLe_trans nm) (strLe_total nm) l
  exact h.imp (fun hxy => (strLe_eq_true_iff _ _).mp hxy)

/-- Stability of the catalog sort: when every element's numeric identifier is
its position in the input list, elements with equal names appear in the sorted
output in order of strictly increasing identifier. -/
theorem mergeSort_strLe_stable_ids {α : Type} (nm : α → String) (ident : α → Int)
    (l : List α) (hpos : ∀ (p : Nat) (x : α), l.get? p = some x → ident x = (p : Int)) :
    ∀ i j a b,
      (l.mergeSort (fun x y => strLe (nm x) (nm y))).get? i = some a →
      (l.mergeSort (fun x y => strLe (nm x) (nm y))).get? j = some b →
      i < j → nm a = nm b → ident a < ident b := by
  intro i j a b ha hb hij hnm
  set q := fun x y => strLe (nm x) (nm y) with hq
  set r := l.mergeSort q with hr
  have hnodup : l.Nodup := by
    rw [List.nodup_iff_injective_get]
    intro ⟨p, hp⟩ ⟨q, hq⟩ hpq
    have h1 := hpos p _ (List.get?_eq_get hp)
    have h2 := hpos q _ (List.get?_eq_get hq)
    rw [hpq] at h1
    rw [h1] at h2
    have : p = q := by exact_mod_cast h2
    simpa using this
  have hperm : List.Perm r l := List.mergeSort_perm l q
  have hnr : r.Nodup := hperm.symm.nodup hnodup
  have hilen : i < r.length := (List.get?_eq_some.mp ha).1
  have hjlen : j < r.length := (List.get?_eq_some.mp hb).1
  have hamem : a ∈ l := hperm.subset (List.get?_mem ha)
  have hbmem : b ∈ l := hperm.subset (List.get?_mem hb)
  obtain ⟨pa, hpa⟩ := List.get?_of_mem hamem
  obtain ⟨pb, hpb⟩ := List.get?_of_mem hbmem
  have hida : ident a = (pa : Int) := hpos pa a hpa
  have hidb : ident b = (pb : Int) := hpos pb b hpb
  have hab : a ≠ b := by
    intro hcontra
    subst hcontra
    have := List.get?_inj hilen hnr (ha.trans hb.symm)
    omega
  have hpapb : pa ≠ pb := by
    intro hcontra
    subst hcontra
    rw [hpa] at hpb
    exact hab (Option.some.inj hpb)
  rw [hida, hidb, Int.ofNat_lt]
  by_contra hnot
  have hba : pb < pa := by omega
  have hsub : List.Sublist [b, a] l := pair_sublist_get? l pb pa b a hba hpb hpa
  have hpair : q b a = true := by
    rw [hq]
    exact (strLe_eq_true_iff _ _).mpr (le_of_eq hnm.symm)
  have hsubr : List.Sublist [b, a] r :=
    List.pair_sublist_mergeSort (strLe_trans nm) (strLe_total nm) hpair hsub
  obtain ⟨p, q, hpq, hp, hq⟩ := get?_pair_sublist hsubr
  have hplen : p < r.length := (List.get?_eq_some.mp hp).1
  have hqlen : q < r.length := (List.get?_eq_some.mp hq).1
  have hpj : p = j := List.get?_inj hplen hnr (hp.trans hb.symm)
  have hqi : q = i := List.get?_inj hqlen hnr (hq.trans ha.symm)
  omega

/-- Identifier and name of an entry of the enumerated (pre-sort) effect list
are determined by its position. -/
theorem effects_enum_pos (names : List String) :
    ∀ (p : Nat) (x : Effect),
      ((enumerate names).map (fun q => Effect.mk (q.1 : Int) q.2)).get? p = some x →
      x.effect_id = (p : Int) ∧ names.get? p = some x.name := by
  intro p x hx
  rw [List.get?_map, enumerate_get?] at hx
  cases hn : names.get? p with
  | none => rw [hn] at hx; simp at hx
  | some s =>
    rw [hn] at hx
    simp only [Option.map_some'] at hx
    obtain rfl := Option.some.inj hx
    exact ⟨rfl, rfl⟩

/-- Identifier and name of an entry of the enumerated (pre-sort) palette list
are determined by its position. -/
theorem palettes_enum_pos (names : List String) :
    ∀ (p : Nat) (x : Palette),
      ((enumerate names).map (fun q => Palette.mk q.2 (q.1 : Int))).get? p = some x →
      x.palette_id = (p : Int) ∧ names.get? p = some x.name := by
  intro p x hx
  rw [List.get?_map, enumerate_get?] at hx
  cases hn : names.get? p with
  | none => rw [hn] at hx; simp at hx
  | some s =>
    rw [hn] at hx
    simp only [Option.map_some'] at hx
    obtain rfl := Option.some.inj hx
    exact ⟨rfl, rfl⟩

/-- Characterisation of `Device.update_from_dict`: one equation per aggregate
field.  The state equation refers to the updated device's own tables, which is
exactly the source's use of `self.effects` / `self.palettes` after the two
table phases have run. -/
theorem Device.update_spec (self : Device) (data : DevicePayload) :
    ((self.update_from_dict data).effects =
      match getTruthy (fun l => l.isEmpty) data.effects with
      | some l => effectsFromNames l
      | none => self.effects) ∧
    ((self.update_from_dict data).palettes =
      match getTruthy (fun l => l.isEmpty) data.palettes with
      | some l => palettesFromNames l
      | none => self.palettes) ∧
    ((self.update_from_dict data).info =
      match getTruthy InfoPayload.isEmptyDict data.info with
      | some ip => some (Info.from_dict ip)
      | none => self.info) ∧
    ((self.update_from_dict data).state =
      match getTruthy StatePayload.isEmptyDict data.state with
      | some sp => some (State.from_dict sp (self.update_from_dict data).effects
          (self.update_from_dict data).palettes)
      | none => self.state) := by
  cases he : getTruthy (fun l => l.isEmpty) data.effects <;>
  cases hp : getTruthy (fun l => l.isEmpty) data.palettes <;>
  cases hi : getTruthy InfoPayload.isEmptyDict data.info <;>
  cases hs : getTruthy StatePayload.isEmptyDict data.state <;>
    simp [Device.update_from_dict, he, hp, hi, hs]

/-! Claim theorems. -/

/-- C6: For every State, the derived accessor `playlist_active` returns true
exactly when `playlist == -1`, and `preset_active` returns true exactly when
`preset == -1` — the literal boolean behaviour on the -1 sentinel, not its
negation. -/
theorem C6_active_accessors_literal (s : State) :
    (s.playlist_active = true ↔ s.playlist = -1) ∧
    (s.preset_active = true ↔ s.preset = -1) := by
  constructor <;> simp [State.playlist_active, State.preset_active]

/-- C6 witness: a state decoded from an empty payload has the -1 sentinels,
and both accessors return true on it. -/
theorem C6_active_accessors_literal_witness :
    (State.from_dict {} [] []).playlist_active = true ∧
    (State.from_dict {} [] []).preset_active = true :=
  ⟨((C6_active_accessors_literal (State.from_dict {} [] [])).1).mpr (by decide),
   ((C6_active_accessors_literal (State.from_dict {} [] [])).2).mpr (by decide)⟩

/-- C5: For every decoded Segment the `effect`/`palette` fields are non-null
(the decode is total and always yields a value): when the payload's `"fx"` /
`"pal"` ID — defaulting to 0 when absent — matches no entry of the supplied
table, the sentinel `{id := 0, name := "Unknown"}` is substituted. -/
theorem C5_unknown_sentinel (segment_id : Int) (data : SegPayload)
    (effects : List Effect) (palettes : List Palette)
    (state_on : Bool) (state_brightness : Int) :
    ((∀ e ∈ effects, e.effect_id ≠ data.fx.getD 0) →
      (Segment.from_dict segment_id data effects palettes state_on state_brightness).1.effect
        = { effect_id := 0, name := "Unknown" }) ∧
    ((∀ p ∈ palettes, p.palette_id ≠ data.pal.getD 0) →
      (Segment.from_dict segment_id data effects palettes state_on state_brightness).1.palette
        = { name := "Unknown", palette_id := 0 }) := by
  constructor
  · intro h
    have hf : effects.find? (fun item => item.effect_id == data.fx.getD 0) = none :=
      List.find?_eq_none.mpr (fun x hx => by simpa using h x hx)
    simp [Segment.from_dict, hf]
  · intro h
    have hf : palettes.find? (fun item => item.palette_id == data.pal.getD 0) = none :=
      List.find?_eq_none.mpr (fun x hx => by simpa using h x hx)
    simp [Segment.from_dict, hf]

/-- C5 witness: an `fx`/`pal` ID not present in the supplied tables resolves
to the Unknown sentinel. -/
theorem C5_unknown_sentinel_witness :
    (Segment.from_dict 0 { fx := some 5, pal := some 7 }
        [⟨1, "Solid"⟩] [⟨"Default", 2⟩] false 1).1.effect
      = { effect_id := 0, name := "Unknown" } ∧
    (Segment.from_dict 0 { fx := some 5, pal := some 7 }
        [⟨1, "Solid"⟩] [⟨"Default", 2⟩] false 1).1.palette
      = { name := "Unknown", palette_id := 0 } :=
  ⟨(C5_unknown_sentinel 0 { fx := some 5, pal := some 7 }
      [⟨1, "Solid"⟩] [⟨"Default", 2⟩] false 1).1 (by decide),
   (C5_unknown_sentinel 0 { fx := some 5, pal := some 7 }
      [⟨1, "Solid"⟩] [⟨"Default", 2⟩] false 1).2 (by decide)⟩

/-- C7: Wifi decoding returns `none` iff the payload has no `"wifi"` key, and
for every payload that does contain the key — including one mapping it to an
empty `{}` — a present Wifi with the documented defaults for missing
sub-fields. -/
theorem C7_wifi_absent_iff (data : InfoPayload) :
    ((Wifi.from_dict data).isNone ↔ data.wifi = none) ∧
    (∀ w, data.wifi = some w →
      Wifi.from_dict data = some
        { bssid := w.bssid.getD "00:00:00:00:00:00"
          channel := w.channel.getD 0
          rssi := w.rssi.getD 0
          signal := w.signal.getD 0 }) := by
  cases h : data.wifi <;> simp [Wifi.from_dict, h]

/-- C7 witness: an empty `wifi` sub-object yields the defaulted Wifi value,
not an absent one. -/
theorem C7_wifi_absent_iff_witness :
    Wifi.from_dict { wifi := some {} } =
      some { bssid := "00:00:00:00:00:00", channel := 0, rssi := 0, signal := 0 } :=
  (C7_wifi_absent_iff { wifi := some {} }).2 {} rfl

/-- C2 counterexample: with a one-entry `"col"` array, the unconsumed
secondary colour slot holds the plain integer 0, not the tuple (0,0,0) the
claim states. -/
theorem C2_counterexample :
    (Segment.from_dict 0 { col := some [[255, 0, 0]] } [] [] false 1).1.color_secondary
      ≠ SegColor.tup [0, 0, 0] := by decide

/-- C2 (amended): color slots not consumed from the `"col"` array are all set
to the same scalar default 0 — the plain integer produced by unpacking
`(0, 0, 0)` across the three slot variables, not a `(0,0,0)` tuple — applied
identically to whichever slots were not consumed, and with three or more
entries the first three are used verbatim in order primary, secondary,
tertiary.  An absent `"col"` key behaves like an empty array. -/
theorem C2_colors_amended (segment_id : Int) (data : SegPayload)
    (cs : List (List Int)) (effects : List Effect) (palettes : List Palette)
    (state_on : Bool) (state_brightness : Int) :
    (cs = [] →
      (Segment.from_dict segment_id { data with col := some cs } effects palettes
          state_on state_brightness).1.color_primary = SegColor.int 0 ∧
      (Segment.from_dict segment_id { data with col := some cs } effects palettes
          state_on state_brightness).1.color_secondary = SegColor.int 0 ∧
      (Segment.from_dict segment_id { data with col := some cs } effects palettes
          state_on state_brightness).1.color_tertiary = SegColor.int 0) ∧
    (∀ c0, cs = [c0] →
      (Segment.from_dict segment_id { data with col := some cs } effects palettes
          state_on state_brightness).1.color_primary = SegColor.tup c0 ∧
      (Segment.from_dict segment_id { data with col := some cs } effects palettes
          state_on state_brightness).1.color_secondary = SegColor.int 0 ∧
      (Segment.from_dict segment_id { data with col := some cs } effects palettes
          state_on state_brightness).1.color_tertiary = SegColor.int 0) ∧
    (∀ c0 c1, cs = [c0, c1] →
      (Segment.from_dict segment_id { data with col := some cs } effects palettes
          state_on state_brightness).1.color_primary = SegColor.tup c0 ∧
      (Segment.from_dict segment_id { data with col := some cs } effects palettes
          state_on state_brightness).1.color_secondary = SegColor.tup c1 ∧
      (Segment.from_dict segment_id { data with col := some cs } effects palettes
          state_on state_brightness).1.color_tertiary = SegColor.int 0) ∧
    (∀ c0 c1 c2 rest, cs = c0 :: c1 :: c2 :: rest →
      (Segment.from_dict segment_id { data with col := some cs } effects palettes
          state_on state_brightness).1.color_primary = SegColor.tup c0 ∧
      (Segment.from_dict segment_id { data with col := some cs } effects palettes
          state_on state_brightness).1.color_secondary = SegColor.tup c1 ∧
      (Segment.from_dict segment_id { data with col := some cs } effects palettes
          state_on state_brightness).1.color_tertiary = SegColor.tup c2) ∧
    ((Segment.from_dict segment_id { data with col := none } effects palettes
        state_on state_brightness).1.color_primary = SegColor.int 0 ∧
      (Segment.from_dict segment_id { data with col := none } effects palettes
          state_on state_brightness).1.color_secondary = SegColor.int 0 ∧
      (Segment.from_dict segment_id { data with col := none } effects palettes
          state_on state_brightness).1.color_tertiary = SegColor.int 0) := by
  refine ⟨?_, ?_, ?_, ?_, ?_⟩
  · rintro rfl
    exact ⟨rfl, rfl, rfl⟩
  · rintro c0 rfl
    exact ⟨rfl, rfl, rfl⟩
  · rintro c0 c1 rfl
    exact ⟨rfl, rfl, rfl⟩
  · rintro c0 c1 c2 rest rfl
    exact ⟨rfl, rfl, rfl⟩
  · exact ⟨rfl, rfl, rfl⟩

/-- C2 witness: with one `"col"` entry the primary slot takes it verbatim and
the other two slots are the scalar 0. -/
theorem C2_colors_amended_witness :
    (Segment.from_dict 0 { col := some [[255, 0, 0]] } [] [] false 1).1.color_primary
        = SegColor.tup [255, 0, 0] ∧
    (Segment.from_dict 0 { col := some [[255, 0, 0]] } [] [] false 1).1.color_secondary
        = SegColor.int 0 ∧
    (Segment.from_dict 0 { col := some [[255, 0, 0]] } [] [] false 1).1.color_tertiary
        = SegColor.int 0 :=
  (C2_colors_amended 0 {} [[255, 0, 0]] [] [] false 1).2.1 [255, 0, 0] rfl

/-- C9: Segment decoding is not pure in its payload: with the `"col"` key
present, the payload comes back with up to three leading colour entries
removed (`List.drop 3`, which drops `min 3 (length)` entries); with the key
absent the payload is unchanged; and decoding the resulting payload again
yields different colour fields than the first decode (concrete instance). -/
theorem C9_col_mutation (segment_id : Int) (data : SegPayload)
    (cs : List (List Int)) (effects : List Effect) (palettes : List Palette)
    (state_on : Bool) (state_brightness : Int) :
    ((Segment.from_dict segment_id { data with col := some cs } effects palettes
        state_on state_brightness).2 = { data with col := some (cs.drop 3) }) ∧
    ((Segment.from_dict segment_id { data with col := none } effects palettes
        state_on state_brightness).2 = { data with col := none }) ∧
    ((Segment.from_dict 0 (Segment.from_dict 0 { col := some [[255, 0, 0]] }
          [] [] false 1).2 [] [] false 1).1.color_primary
      ≠ (Segment.from_dict 0 { col := some [[255, 0, 0]] } [] [] false 1).1.color_primary) ∧
    ((Segment.from_dict 0 { col := some [[255, 0, 0]] } [] [] false 1).2
      ≠ ({ col := some [[255, 0, 0]] } : SegPayload)) := by
  refine ⟨rfl, rfl, by decide, by decide⟩

/-- C9 witness: the concrete one-entry payload comes back with its `"col"`
list emptied. -/
theorem C9_col_mutation_witness :
    (Segment.from_dict 0 { col := some [[255, 0, 0]] } [] [] false 1).2
      = { col := some [] } :=
  (C9_col_mutation 0 {} [[255, 0, 0]] [] [] false 1).1

/-- C1: documents the divergence between the claim (and the constructor's own
docstring) and the code.  Construction fails exactly when one of the four
required keys is missing, and succeeds when all four are present even with
empty or null values; but on a missing key the completeness check evaluates
`data[k]` on the missing key and raises `KeyError`, so the documented
`WLEDError("WLED data is incomplete, ...")` construction error is never
raised on any payload. -/
theorem C1_missing_key_raises_keyerror_not_wlederror :
    Device.init {} = Except.error (PyErr.keyError "effects") ∧
    (∀ data : DevicePayload,
      (∃ d, Device.init data = Except.ok d) ↔
        (data.effects.isSome ∧ data.palettes.isSome ∧
          data.info.isSome ∧ data.state.isSome)) ∧
    (∀ (data : DevicePayload) (msg : String),
      Device.init data ≠ Except.error (PyErr.wledError msg)) ∧
    Device.init { effects := some (DVal.val []), palettes := some (DVal.val [])
                  info := some (DVal.val {}), state := some (DVal.val {}) }
      = Except.ok {} ∧
    Device.init { effects := some DVal.null, palettes := some DVal.null
                  info := some DVal.null, state := some DVal.null }
      = Except.ok {} := by
  refine ⟨by decide, ?_, ?_, by decide, by decide⟩
  · rintro ⟨e, p, i, st⟩
    cases e <;> cases p <;> cases i <;> cases st <;>
      simp [Device.init, anyExcept, Device.incomplete_at, DevicePayload.hasKey,
        DevicePayload.item_is_none, Bind.bind, Except.bind]
  · rintro ⟨e, p, i, st⟩ msg
    cases e <;> cases p <;> cases i <;> cases st <;>
      simp [Device.init, anyExcept, Device.incomplete_at, DevicePayload.hasKey,
        DevicePayload.item_is_none, Bind.bind, Except.bind]

/-- C1 witness: on the empty payload the constructor raises `KeyError`, not
the documented construction error. -/
theorem C1_missing_key_witness :
    Device.init {} = Except.error (PyErr.keyError "effects") ∧
    Device.init {} ≠ Except.error
      (PyErr.wledError "WLED data is incomplete, cannot construct device object") :=
  ⟨C1_missing_key_raises_keyerror_not_wlederror.1,
   C1_missing_key_raises_keyerror_not_wlederror.2.2.1 {} _⟩

/-- C10: constructing a Device from a payload whose four keys are all present
succeeds; when the `info` / `state` values are falsy the corresponding
attribute is never assigned (reading it would raise `AttributeError`,
modelled as `none`), and when the `effects` / `palettes` values are falsy the
tables remain the class-level empty list. -/
theorem C10_falsy_values_never_assigned (ev pv : DVal (List String))
    (iv : DVal InfoPayload) (sv : DVal StatePayload) :
    ∃ d, Device.init { effects := some ev, palettes := some pv
                       info := some iv, state := some sv } = Except.ok d ∧
      (getTruthy (fun l => l.isEmpty) (some ev) = none → d.effects = []) ∧
      (getTruthy (fun l => l.isEmpty) (some pv) = none → d.palettes = []) ∧
      (getTruthy InfoPayload.isEmptyDict (some iv) = none → d.info = none) ∧
      (getTruthy StatePayload.isEmptyDict (some sv) = none → d.state = none) := by
  refine ⟨Device.update_from_dict {}
    { effects := some ev, palettes := some pv, info := some iv, state := some sv },
    rfl, ?_, ?_, ?_, ?_⟩ <;> intro h
  · have hspec := (Device.update_spec {}
      { effects := some ev, palettes := some pv, info := some iv, state := some sv }).1
    rw [hspec]
    simp only [h]
  · have hspec := (Device.update_spec {}
      { effects := some ev, palettes := some pv, info := some iv, state := some sv }).2.1
    rw [hspec]
    simp only [h]
  · have hspec := (Device.update_spec {}
      { effects := some ev, palettes := some pv, info := some iv, state := some sv }).2.2.1
    rw [hspec]
    simp only [h]
  · have hspec := (Device.update_spec {}
      { effects := some ev, palettes := some pv, info := some iv, state := some sv }).2.2.2
    rw [hspec]
    simp only [h]

/-- C10 witness: the all-present, all-falsy payload constructs a device with
empty tables and unassigned info / state attributes. -/
theorem C10_falsy_values_never_assigned_witness :
    ∃ d, Device.init { effects := some (DVal.val []), palettes := some (DVal.val [])
                       info := some (DVal.val {}), state := some (DVal.val {}) }
        = Except.ok d ∧
      d.effects = [] ∧ d.palettes = [] ∧ d.info = none ∧ d.state = none := by
  obtain ⟨d, hok, h1, h2, h3, h4⟩ := C10_falsy_values_never_assigned
    (DVal.val []) (DVal.val []) (DVal.val {}) (DVal.val {})
  exact ⟨d, hok, h1 rfl, h2 rfl, h3 rfl, h4 rfl⟩

/-- C3: each of the four aggregate fields is fully replaced when the payload
supplies a truthy value for its key and left unchanged when the value is
falsy or absent; and the state decode always uses the effect and palette
tables as they stand after this same update's table phase — the updated
device's own tables. -/
theorem C3_update_replace_or_keep (self : Device) (data : DevicePayload) :
    (getTruthy (fun l => l.isEmpty) data.effects = none →
      (self.update_from_dict data).effects = self.effects) ∧
    (∀ l, getTruthy (fun l => l.isEmpty) data.effects = some l →
      (self.update_from_dict data).effects = effectsFromNames l) ∧
    (getTruthy (fun l => l.isEmpty) data.palettes = none →
      (self.update_from_dict data).palettes = self.palettes) ∧
    (∀ l, getTruthy (fun l => l.isEmpty) data.palettes = some l →
      (self.update_from_dict data).palettes = palettesFromNames l) ∧
    (getTruthy InfoPayload.isEmptyDict data.info = none →
      (self.update_from_dict data).info = self.info) ∧
    (∀ ip, getTruthy InfoPayload.isEmptyDict data.info = some ip →
      (self.update_from_dict data).info = some (Info.from_dict ip)) ∧
    (getTruthy StatePayload.isEmptyDict data.state = none →
      (self.update_from_dict data).state = self.state) ∧
    (∀ sp, getTruthy StatePayload.isEmptyDict data.state = some sp →
      (self.update_from_dict data).state
        = some (State.from_dict sp (self.update_from_dict data).effects
            (self.update_from_dict data).palettes)) := by
  obtain ⟨he, hp, hi, hs⟩ := Device.update_spec self data
  refine ⟨?_, ?_, ?_, ?_, ?_, ?_, ?_, ?_⟩
  · intro h; rw [he, h]
  · intro l h; rw [he, h]
  · intro h; rw [hp, h]
  · intro l h; rw [hp, h]
  · intro h; rw [hi, h]
  · intro ip h; rw [hi, h]
  · intro h; rw [hs, h]
  · intro sp h; rw [hs, h]

/-- C3 witness: an update carrying only a truthy `state` leaves the tables of
a previously populated device unchanged and decodes the new state against
those (unchanged) tables. -/
theorem C3_update_replace_or_keep_witness :
    (Device.update_from_dict
        { effects := [⟨0, "Solid"⟩], palettes := [⟨"Default", 0⟩] }
        { state := some (DVal.val { bri := some 5 }) }).effects
      = [⟨0, "Solid"⟩] ∧
    (Device.update_from_dict
        { effects := [⟨0, "Solid"⟩], palettes := [⟨"Default", 0⟩] }
        { state := some (DVal.val { bri := some 5 }) }).state
      = some (State.from_dict { bri := some 5 }
          (Device.update_from_dict
            { effects := [⟨0, "Solid"⟩], palettes := [⟨"Default", 0⟩] }
            { state := some (DVal.val { bri := some 5 }) }).effects
          (Device.update_from_dict
            { effects := [⟨0, "Solid"⟩], palettes := [⟨"Default", 0⟩] }
            { state := some (DVal.val { bri := some 5 }) }).palettes) :=
  ⟨(C3_update_replace_or_keep
      { effects := [⟨0, "Solid"⟩], palettes := [⟨"Default", 0⟩] }
      { state := some (DVal.val { bri := some 5 }) }).1 rfl,
   (C3_update_replace_or_keep
      { effects := [⟨0, "Solid"⟩], palettes := [⟨"Default", 0⟩] }
      { state := some (DVal.val { bri := some 5 }) }).2.2.2.2.2.2.2
      { bri := some 5 } (by decide)⟩

/-- C8: the state decode extracts `brightness` (default 1) and `on` (default
false) and threads them into every segment decode as ambient defaults: a
segment payload lacking `"bri"` gets the state-level brightness, one lacking
`"on"` gets the state-level on flag, one lacking `"cln"` gets clones = -1,
and `length` defaults to `stop - start` when `"len"` is absent. -/
theorem C8_state_threading (data : StatePayload)
    (effects : List Effect) (palettes : List Palette) :
    (State.from_dict data effects palettes).brightness = data.bri.getD 1 ∧
    (State.from_dict data effects palettes).«on» = data.«on».getD false ∧
    (State.from_dict data effects palettes).segments.length
      = (data.seg.getD []).length ∧
    (∀ i sd, (data.seg.getD []).get? i = some sd →
      ∃ s, (State.from_dict data effects palettes).segments.get? i = some s ∧
        (sd.bri = none → s.brightness = data.bri.getD 1) ∧
        (sd.«on» = none → s.«on» = data.«on».getD false) ∧
        (sd.cln = none → s.clones = -1) ∧
        (sd.len = none → s.length = sd.stop.getD 0 - sd.start.getD 0)) := by
  refine ⟨rfl, rfl, ?_, ?_⟩
  · simp [State.from_dict, enumerate, enumerateFrom_length]
  · intro i sd hsd
    refine ⟨(Segment.from_dict (i : Int) sd effects palettes
      (data.«on».getD false) (data.bri.getD 1)).1, ?_, ?_, ?_, ?_, ?_⟩
    · show ((enumerate (data.seg.getD [])).map
        (fun p => (Segment.from_dict (p.1 : Int) p.2 effects palettes
          (data.«on».getD false) (data.bri.getD 1)).1)).get? i = _
      rw [List.get?_map, enumerate_get?, hsd]
      rfl
    · intro h; simp [Segment.from_dict, h]
    · intro h; simp [Segment.from_dict, h]
    · intro h; simp [Segment.from_dict, h]
    · intro h; simp [Segment.from_dict, h]

/-- C8 witness: a segment payload with only `"stop"` inherits the state-level
brightness and on flag, the clones sentinel, and the derived length. -/
theorem C8_state_threading_witness :
    ∃ s, (State.from_dict
          { bri := some 128, «on» := some true, seg := some [{ stop := some 10 }] }
          [] []).segments.get? 0 = some s ∧
      s.brightness = 128 ∧ s.«on» = true ∧ s.clones = -1 ∧ s.length = 10 := by
  obtain ⟨s, hget, h1, h2, h3, h4⟩ := (C8_state_threading
    { bri := some 128, «on» := some true, seg := some [{ stop := some 10 }] }
    [] []).2.2.2 0 { stop := some 10 } rfl
  exact ⟨s, hget, h1 rfl, h2 rfl, h3 rfl, h4 rfl⟩

/-- Unfolding equation for `effectsFromNames`. -/
theorem effectsFromNames_eq (names : List String) :
    effectsFromNames names
      = ((enumerate names).map (fun q => Effect.mk (q.1 : Int) q.2)).mergeSort
          (fun x y => strLe (Effect.name x) (Effect.name y)) := rfl

/-- Unfolding equation for `palettesFromNames`. -/
theorem palettesFromNames_eq (names : List String) :
    palettesFromNames names
      = ((enumerate names).map (fun q => Palette.mk q.2 (q.1 : Int))).mergeSort
          (fun x y => strLe (Palette.name x) (Palette.name y)) := rfl

/-- C4: after every catalog rebuild from a (truthy, hence non-empty) input
array of names, the rebuilt `effects` / `palettes` table is sorted by name
regardless of input order, entries with equal names keep the relative order
of their original numeric IDs (stable ties), and each entry's numeric ID is
its position in the original input array, not its sorted position (the table
is a permutation of the enumerated input). -/
theorem C4_catalog_sorted_stable_ids (self : Device) (data : DevicePayload) :
    (∀ names, getTruthy (fun l => l.isEmpty) data.effects = some names →
      ((self.update_from_dict data).effects).Pairwise (fun a b => a.name ≤ b.name) ∧
      (∀ i j a b, ((self.update_from_dict data).effects).get? i = some a →
        ((self.update_from_dict data).effects).get? j = some b →
        i < j → a.name = b.name → a.effect_id < b.effect_id) ∧
      List.Perm ((self.update_from_dict data).effects)
        ((enumerate names).map (fun q => Effect.mk (q.1 : Int) q.2)) ∧
      (∀ a ∈ (self.update_from_dict data).effects,
        ∃ p : Nat, names.get? p = some a.name ∧ a.effect_id = (p : Int))) ∧
    (∀ names, getTruthy (fun l => l.isEmpty) data.palettes = some names →
      ((self.update_from_dict data).palettes).Pairwise (fun a b => a.name ≤ b.name) ∧
      (∀ i j a b, ((self.update_from_dict data).palettes).get? i = some a →
        ((self.update_from_dict data).palettes).get? j = some b →
        i < j → a.name = b.name → a.palette_id < b.palette_id) ∧
      List.Perm ((self.update_from_dict data).palettes)
        ((enumerate names).map (fun q => Palette.mk q.2 (q.1 : Int))) ∧
      (∀ a ∈ (self.update_from_dict data).palettes,
        ∃ p : Nat, names.get? p = some a.name ∧ a.palette_id = (p : Int))) := by
  obtain ⟨he, hp, hi, hs⟩ := Device.update_spec self data
  constructor
  · intro names h
    rw [he, h]
    show (effectsFromNames names).Pairwise _ ∧ _
    rw [effectsFromNames_eq]
    refine ⟨mergeSort_strLe_sorted Effect.name _, ?_, List.mergeSort_perm _ _, ?_⟩
    · exact mergeSort_strLe_stable_ids Effect.name Effect.effect_id _
        (fun p x hx => (effects_enum_pos names p x hx).1)
    · intro a ha
      obtain ⟨p, hp'⟩ := List.get?_of_mem (List.mem_mergeSort.mp ha)
      obtain ⟨hid, hname⟩ := effects_enum_pos names p a hp'
      exact ⟨p, hname, hid⟩
  · intro names h
    rw [hp, h]
    show (palettesFromNames names).Pairwise _ ∧ _
    rw [palettesFromNames_eq]
    refine ⟨mergeSort_strLe_sorted Palette.name _, ?_, List.mergeSort_perm _ _, ?_⟩
    · exact mergeSort_strLe_stable_ids Palette.name Palette.palette_id _
        (fun p x hx => (palettes_enum_pos names p x hx).1)
    · intro a ha
      obtain ⟨p, hp'⟩ := List.get?_of_mem (List.mem_mergeSort.mp ha)
      obtain ⟨hid, hname⟩ := palettes_enum_pos names p a hp'
      exact ⟨p, hname, hid⟩

/-- C4 witness: a concrete rebuild sorts the effects by name and the palettes
table is the enumerated input. -/
theorem C4_catalog_sorted_stable_ids_witness :
    ((Device.update_from_dict {} { effects := some (DVal.val ["Solid", "Blink"])
                                   palettes := some (DVal.val ["Default"]) }).effects).Pairwise
      (fun a b => a.name ≤ b.name) ∧
    List.Perm ((Device.update_from_dict {} { effects := some (DVal.val ["Solid", "Blink"])
                                             palettes := some (DVal.val ["Default"]) }).palettes)
      [⟨"Default", 0⟩] :=
  ⟨((C4_catalog_sorted_stable_ids {}
      { effects := some (DVal.val ["Solid", "Blink"])
        palettes := some (DVal.val ["Default"]) }).1 ["Solid", "Blink"] rfl).1,
   ((C4_catalog_sorted_stable_ids {}
      { effects := some (DVal.val ["Solid", "Blink"])
        palettes := some (DVal.val ["Default"]) }).2 ["Default"] rfl).2.2.1⟩

end WLED
